import Mathlib

/-!
Shallow embedding of the Google Sheets MCP server (src/main.py).

The server is a credentialed proxy: `authenticate_google_services` decides a
credential mode and produces up to two service handles (`sheets_service`,
`drive_service`); `handle_list_tools` advertises a capability-gated catalog;
`handle_call_tool` dispatches an operation name and argument mapping to one of
seven read operations, each of which wraps its outcome in a JSON envelope.

Remote Google endpoints (the sheet-values endpoint, the spreadsheet-metadata
endpoint and the Drive file-listing endpoint) are out of scope for the
repository and are modelled as oracle functions stored inside the handles;
fallible Python code is modelled with `Except String`, where `.error` is a
raised Python exception carrying `str(e)`.
-/

namespace SheetMCP

/-- JSON-like values: the payloads of tool arguments, sheet cells and response
envelopes (`json.dumps` dictionaries are `obj` with fields in source order). -/
inductive J where
  | null : J
  | bool (b : Bool) : J
  | num (n : Int) : J
  | str (s : String) : J
  | arr (xs : List J) : J
  | obj (fields : List (String × J)) : J
  deriving Repr

/-- Python repr() of a value, used by str() on non-string values: None, True,
False, numbers, quoted strings, bracketed lists. Dict rendering is
approximated by an opaque-looking placeholder; no remote endpoint delivers a
dict as a cell value, and no claim exercises the case. -/
def pyRepr : J → String
  | .null => "None"
  | .bool true => "True"
  | .bool false => "False"
  | .num n => toString n
  | .str s => "'" ++ s ++ "'"
  | .arr xs => "[" ++ String.intercalate ", " (xs.attach.map (fun x => pyRepr x.1)) ++ "]"
  | .obj _ => "dict"
decreasing_by
  have := List.sizeOf_lt_of_mem x.2
  simp_wf
  omega

/-- Python str() of a value, as used by f-string interpolation and by
`str(cell)` in the search scan: a string stays itself, anything else is its
repr (None renders as the text "None"). -/
def pyStr (v : J) : String :=
  match v with
  | .str s => s
  | v => pyRepr v

/-- Python truthiness (`if exact_match:`, `if not values:` and the like). -/
def pyTruthy : J → Bool
  | .null => false
  | .bool b => b
  | .num n => n != 0
  | .str s => s != ""
  | .arr xs => !xs.isEmpty
  | .obj fs => !fs.isEmpty

/-- Python `s.lower()` on a string: character-wise ASCII lowercasing (cell
values and search terms are ASCII in every property below). -/
def strLower (s : String) : String := ⟨s.data.map Char.toLower⟩

/-- Python `value.lower()`: succeeds on a string, raises AttributeError
(modelled as `.error` with the CPython message) on any other value — in
particular on None, which is what a missing argument produces. -/
def pyLower : J → Except String String
  | .str s => .ok (strLower s)
  | .null => .error "'NoneType' object has no attribute 'lower'"
  | .bool _ => .error "'bool' object has no attribute 'lower'"
  | .num _ => .error "'int' object has no attribute 'lower'"
  | .arr _ => .error "'list' object has no attribute 'lower'"
  | .obj _ => .error "'dict' object has no attribute 'lower'"

/-- Python `needle in hay` on strings: substring containment. -/
def strHasSub (hay needle : String) : Bool :=
  (List.range (hay.data.length + 1)).any (fun i => needle.data.isPrefixOf (hay.data.drop i))

/-- The argument mapping of one tool call (`arguments: dict`), field order as
sent by the host. -/
abbrev Args := List (String × J)

/-- Python `arguments.get(k)`: the stored value, or None when absent. -/
def Args.get (args : Args) (k : String) : J :=
  match args.find? (fun p => p.1 == k) with
  | some p => p.2
  | none => J.null

/-- Python `arguments.get(k, d)`: the stored value, or the default when absent. -/
def Args.getD (args : Args) (k : String) (d : J) : J :=
  match args.find? (fun p => p.1 == k) with
  | some p => p.2
  | none => d

/-- One `types.TextContent` of a tool response: every operation serializes a
JSON envelope (`json` constructor); the dispatcher's catch-all answers with a
plain string (`text` constructor, the source's `f"Error: ..."`). -/
inductive Content where
  | json (j : J) : Content
  | text (s : String) : Content
  deriving Repr

/-- Per-tab metadata of a spreadsheet, as the metadata endpoint delivers it
(`sheets[i].properties`). The fields the source reads with a plain subscript
(sheetId, title, index) are required; the ones read with `.get` are optional. -/
structure SheetProps where
  sheetId : J
  title : J
  index : J
  sheetType : Option J
  rowCount : Option J
  columnCount : Option J

/-- Spreadsheet-level metadata (`result.get('properties', ...)` plus the tab
list); every property the source reads via `.get` is optional. -/
structure SpreadsheetMeta where
  title : Option J
  locale : Option J
  timeZone : Option J
  sheets : List SheetProps

/-- The primary (sheet-reading) service handle: the two remote capabilities the
source invokes through `self.sheets_service`, as oracles. `valuesGet` is
`spreadsheets().values().get(spreadsheetId, range, valueRenderOption?)`
(`none` as third argument = parameter not passed); `spreadsheetsGet` is
`spreadsheets().get(spreadsheetId, fields?)`. An `.error` is a raised
exception carrying the provider's message. -/
structure SheetsHandle where
  valuesGet : J → J → Option J → Except String (List (List J))
  spreadsheetsGet : J → Option String → Except String SpreadsheetMeta

/-- One file record of a Drive `files.list` response; `id` and `name` are read
with a plain subscript in the source, the rest with `.get`. An owner record
carries the two fields the source projects. -/
structure DriveFile where
  id : String
  name : String
  modifiedTime : Option J
  createdTime : Option J
  owners : List (Option J × Option J)
  shared : Option J

/-- A Drive `files.list` response page. -/
structure FilesListResult where
  files : List DriveFile
  nextPageToken : Option J

/-- The extended (file listing/search) service handle: the one remote
capability invoked through `self.drive_service`, as an oracle over
(q, pageSize, orderBy?, fields). -/
structure DriveHandle where
  filesList : String → J → Option J → String → Except String FilesListResult

/-- The server's mutable handle state (`self.sheets_service`,
`self.drive_service`); both start as None. -/
structure ServerState where
  sheets_service : Option SheetsHandle
  drive_service : Option DriveHandle

/-- Python attribute access `self.sheets_service.spreadsheets().values().get(...)`:
on a None handle it raises AttributeError inside the operation's try block. -/
def getSheetsValues (svc : Option SheetsHandle) (spreadsheetId range : J)
    (render : Option J) : Except String (List (List J)) :=
  match svc with
  | none => .error "'NoneType' object has no attribute 'spreadsheets'"
  | some s => s.valuesGet spreadsheetId range render

/-- Python attribute access `self.sheets_service.spreadsheets().get(...)`:
on a None handle it raises AttributeError inside the operation's try block. -/
def getSpreadsheetMeta (svc : Option SheetsHandle) (spreadsheetId : J)
    (fields : Option String) : Except String SpreadsheetMeta :=
  match svc with
  | none => .error "'NoneType' object has no attribute 'spreadsheets'"
  | some s => s.spreadsheetsGet spreadsheetId fields

/-- A `.get` result serialized into JSON: None becomes null. -/
def optJ (v : Option J) : J := v.getD J.null

/-- The uniform error envelope of the five sheet operations:
`json.dumps(dict(status="error", error=str(e)))`. -/
def errEnvelope (e : String) : List Content :=
  [Content.json (J.obj [("status", J.str "error"), ("error", J.str e)])]

/-- `owner.get('displayName', owner.get('emailAddress'))`. -/
def ownerName (o : Option J × Option J) : J :=
  match o.1 with
  | some d => d
  | none => optJ o.2

/-- `_list_spreadsheets`: gated on the extended handle, then a Drive
`files.list` call over all spreadsheet-typed files. -/
def _list_spreadsheets (st : ServerState) (args : Args) : List Content :=
  match st.drive_service with
  | none =>
      [Content.json (J.obj [("status", J.str "error"),
        ("error", J.str "Drive API not available. OAuth authentication required to list spreadsheets.")])]
  | some drive =>
      let limit := args.getD "limit" (J.num 20)
      let order_by := args.getD "order_by" (J.str "modifiedTime desc")
      match drive.filesList "mimeType='application/vnd.google-apps.spreadsheet'" limit
          (some order_by)
          "nextPageToken, files(id, name, modifiedTime, createdTime, owners, shared)" with
      | .error e =>
          [Content.json (J.obj [("status", J.str "error"),
            ("error", J.str ("An error occurred: " ++ e))])]
      | .ok results =>
          let items := results.files
          if items.isEmpty then
            [Content.json (J.obj [("status", J.str "success"),
              ("message", J.str "No spreadsheets found."),
              ("count", J.num 0),
              ("spreadsheets", J.arr [])])]
          else
            let spreadsheets := items.map (fun item =>
              J.obj [("id", J.str item.id), ("name", J.str item.name),
                ("modified_time", optJ item.modifiedTime),
                ("created_time", optJ item.createdTime),
                ("owners", J.arr (item.owners.map ownerName)),
                ("shared", item.shared.getD (J.bool false))])
            [Content.json (J.obj [("status", J.str "success"),
              ("count", J.num spreadsheets.length),
              ("spreadsheets", J.arr spreadsheets),
              ("next_page_token", optJ results.nextPageToken)])]

/-- The Drive filter query `_search_spreadsheets_by_name` interpolates the
user-supplied name into (f-string in the source, no escaping applied). -/
def buildNameQuery (name : J) (exact_match : Bool) : String :=
  if exact_match then
    "mimeType='application/vnd.google-apps.spreadsheet' and name='" ++ pyStr name ++ "'"
  else
    "mimeType='application/vnd.google-apps.spreadsheet' and name contains '" ++ pyStr name ++ "'"

/-- `_search_spreadsheets_by_name`: gated on the extended handle, then a Drive
`files.list` call filtered by the interpolated name query. -/
def _search_spreadsheets_by_name (st : ServerState) (args : Args) : List Content :=
  match st.drive_service with
  | none =>
      [Content.json (J.obj [("status", J.str "error"),
        ("error", J.str "Drive API not available. OAuth authentication required to search spreadsheets.")])]
  | some drive =>
      let name := args.get "name"
      let exact_match := args.getD "exact_match" (J.bool false)
      let query := buildNameQuery name (pyTruthy exact_match)
      match drive.filesList query (J.num 50) none
          "nextPageToken, files(id, name, modifiedTime, createdTime, owners)" with
      | .error e =>
          [Content.json (J.obj [("status", J.str "error"),
            ("error", J.str ("An error occurred: " ++ e))])]
      | .ok results =>
          let items := results.files
          if items.isEmpty then
            [Content.json (J.obj [("status", J.str "success"),
              ("search_term", name),
              ("exact_match", exact_match),
              ("message", J.str ("No spreadsheets found matching '" ++ pyStr name ++ "'.")),
              ("matches_found", J.num 0),
              ("spreadsheets", J.arr [])])]
          else
            let spreadsheets := items.map (fun item =>
              J.obj [("id", J.str item.id), ("name", J.str item.name),
                ("modified_time", optJ item.modifiedTime),
                ("created_time", optJ item.createdTime),
                ("owners", J.arr (item.owners.map ownerName))])
            [Content.json (J.obj [("status", J.str "success"),
              ("search_term", name),
              ("exact_match", exact_match),
              ("matches_found", J.num spreadsheets.length),
              ("spreadsheets", J.arr spreadsheets),
              ("next_page_token", optJ results.nextPageToken)])]

/-- `_read_sheet_data`: values fetch with the default range "Sheet1"; an empty
result is a distinct success envelope (message plus empty data, no counts). -/
def _read_sheet_data (st : ServerState) (args : Args) : List Content :=
  let spreadsheet_id := args.get "spreadsheet_id"
  let range_name := args.getD "range" (J.str "Sheet1")
  match getSheetsValues st.sheets_service spreadsheet_id range_name none with
  | .error e => errEnvelope e
  | .ok values =>
      if values.isEmpty then
        [Content.json (J.obj [("status", J.str "success"),
          ("message", J.str "No data found in the specified range"),
          ("data", J.arr [])])]
      else
        [Content.json (J.obj [("status", J.str "success"),
          ("spreadsheet_id", spreadsheet_id),
          ("range", range_name),
          ("row_count", J.num values.length),
          ("column_count", J.num (if values.isEmpty then 0 else (values.headD []).length)),
          ("data", J.arr (values.map J.arr))])]

/-- `_get_sheet_metadata`: metadata fetch, field projection per tab. -/
def _get_sheet_metadata (st : ServerState) (args : Args) : List Content :=
  let spreadsheet_id := args.get "spreadsheet_id"
  match getSpreadsheetMeta st.sheets_service spreadsheet_id none with
  | .error e => errEnvelope e
  | .ok result =>
      [Content.json (J.obj [("status", J.str "success"),
        ("title", optJ result.title),
        ("locale", optJ result.locale),
        ("time_zone", optJ result.timeZone),
        ("sheet_count", J.num result.sheets.length),
        ("sheets", J.arr (result.sheets.map (fun sheet =>
          J.obj [("sheet_id", sheet.sheetId),
            ("title", sheet.title),
            ("sheet_type", sheet.sheetType.getD (J.str "GRID")),
            ("row_count", optJ sheet.rowCount),
            ("column_count", optJ sheet.columnCount)])))])]

/-- `_list_sheets`: metadata fetch restricted to `sheets.properties`. -/
def _list_sheets (st : ServerState) (args : Args) : List Content :=
  let spreadsheet_id := args.get "spreadsheet_id"
  match getSpreadsheetMeta st.sheets_service spreadsheet_id (some "sheets.properties") with
  | .error e => errEnvelope e
  | .ok result =>
      let sheets := result.sheets.map (fun sheet =>
        J.obj [("sheet_id", sheet.sheetId),
          ("title", sheet.title),
          ("index", sheet.index),
          ("sheet_type", sheet.sheetType.getD (J.str "GRID"))])
      [Content.json (J.obj [("status", J.str "success"),
        ("spreadsheet_id", spreadsheet_id),
        ("sheet_count", J.num sheets.length),
        ("sheets", J.arr sheets)])]

/-- One appended match record of the `_search_sheet_data` scan, with the
source's 1-indexed row/column shift applied to the 0-based loop indices. -/
def matchObj (row_idx col_idx : Nat) (cell : J) (row : List J) : J :=
  J.obj [("row", J.num (row_idx + 1)), ("column", J.num (col_idx + 1)),
    ("cell_value", cell), ("full_row", J.arr row)]

/-- The inner loop of the `_search_sheet_data` scan: walk the enumerated cells
of one row, appending a match record when
`search_term.lower() in str(cell).lower()`. The attribute access
`search_term.lower()` is re-evaluated per cell and raises when `search_term`
is not a string — so on a row with no cells it is never evaluated at all. -/
def scanCellsAux (term : J) (row_idx : Nat) (row : List J) :
    List (Nat × J) → List J → Except String (List J)
  | [], acc => .ok acc
  | c :: cs, acc =>
      match pyLower term with
      | .error e => .error e
      | .ok t =>
          if strHasSub (strLower (pyStr c.2)) t then
            scanCellsAux term row_idx row cs (acc ++ [matchObj row_idx c.1 c.2 row])
          else
            scanCellsAux term row_idx row cs acc

/-- The outer loop of the `_search_sheet_data` scan over the enumerated rows,
threading the accumulated match list. -/
def scanRowsAux (term : J) : List (Nat × List J) → List J → Except String (List J)
  | [], acc => .ok acc
  | r :: rs, acc =>
      match scanCellsAux term r.1 r.2 r.2.enum acc with
      | .error e => .error e
      | .ok acc2 => scanRowsAux term rs acc2

/-- The nested scan loop of `_search_sheet_data`: enumerate rows, enumerate
cells, collect matches starting from the empty list. -/
def scanRows (search_term : J) (values : List (List J)) : Except String (List J) :=
  scanRowsAux search_term values.enum []

/-- `_search_sheet_data`: fetch the whole named sheet, scan every cell. -/
def _search_sheet_data (st : ServerState) (args : Args) : List Content :=
  let spreadsheet_id := args.get "spreadsheet_id"
  let search_term := args.get "search_term"
  let sheet_name := args.getD "sheet_name" (J.str "Sheet1")
  let body : Except String J := do
    let values ← getSheetsValues st.sheets_service spreadsheet_id sheet_name none
    let found ← scanRows search_term values
    pure (J.obj [("status", J.str "success"),
      ("search_term", search_term),
      ("sheet_name", sheet_name),
      ("matches_found", J.num found.length),
      ("matches", J.arr found)])
  match body with
  | .ok j => [Content.json j]
  | .error e => errEnvelope e

/-- `_get_range_data`: values fetch that always passes a render option
(defaulting to FORMATTED_VALUE) and has no special empty-result branch. -/
def _get_range_data (st : ServerState) (args : Args) : List Content :=
  let spreadsheet_id := args.get "spreadsheet_id"
  let range_name := args.get "range"
  let value_render_option := args.getD "value_render_option" (J.str "FORMATTED_VALUE")
  match getSheetsValues st.sheets_service spreadsheet_id range_name
      (some value_render_option) with
  | .error e => errEnvelope e
  | .ok values =>
      [Content.json (J.obj [("status", J.str "success"),
        ("spreadsheet_id", spreadsheet_id),
        ("range", range_name),
        ("value_render_option", value_render_option),
        ("row_count", J.num values.length),
        ("column_count", J.num (if values.isEmpty then 0 else (values.headD []).length)),
        ("data", J.arr (values.map J.arr))])]

/-- An advertised tool descriptor (`mcp.types.Tool`). -/
structure Tool where
  name : String
  description : String
  inputSchema : J

/-- A JSON-schema string property with a description. -/
def strProp (desc : String) : J :=
  J.obj [("type", J.str "string"), ("description", J.str desc)]

/-- A JSON-schema string property with a description and a default. -/
def strPropD (desc dflt : String) : J :=
  J.obj [("type", J.str "string"), ("description", J.str desc), ("default", J.str dflt)]

/-- `handle_list_tools`: the five base descriptors, extended with the two
Drive discovery descriptors exactly when `self.drive_service` is truthy
(a live handle). -/
def handle_list_tools (st : ServerState) : List Tool :=
  let tools : List Tool := [
    { name := "read_sheet_data",
      description := "Read data from a Google Sheet by spreadsheet ID and range",
      inputSchema := J.obj [("type", J.str "object"),
        ("properties", J.obj [
          ("spreadsheet_id", strProp "The ID of the Google Spreadsheet"),
          ("range", strPropD "The range to read (e.g., 'Sheet1!A1:C10')" "Sheet1")]),
        ("required", J.arr [J.str "spreadsheet_id"])] },
    { name := "get_sheet_metadata",
      description := "Get metadata about a Google Spreadsheet",
      inputSchema := J.obj [("type", J.str "object"),
        ("properties", J.obj [
          ("spreadsheet_id", strProp "The ID of the Google Spreadsheet")]),
        ("required", J.arr [J.str "spreadsheet_id"])] },
    { name := "list_sheets",
      description := "List all sheets/tabs in a Google Spreadsheet",
      inputSchema := J.obj [("type", J.str "object"),
        ("properties", J.obj [
          ("spreadsheet_id", strProp "The ID of the Google Spreadsheet")]),
        ("required", J.arr [J.str "spreadsheet_id"])] },
    { name := "search_sheet_data",
      description := "Search for specific data in a Google Sheet",
      inputSchema := J.obj [("type", J.str "object"),
        ("properties", J.obj [
          ("spreadsheet_id", strProp "The ID of the Google Spreadsheet"),
          ("search_term", strProp "The term to search for"),
          ("sheet_name", strPropD "Name of the specific sheet to search in" "Sheet1")]),
        ("required", J.arr [J.str "spreadsheet_id", J.str "search_term"])] },
    { name := "get_range_data",
      description := "Get data from a specific range with formatting options",
      inputSchema := J.obj [("type", J.str "object"),
        ("properties", J.obj [
          ("spreadsheet_id", strProp "The ID of the Google Spreadsheet"),
          ("range", strProp "The range to read (e.g., 'Sheet1!A1:C10')"),
          ("value_render_option", J.obj [("type", J.str "string"),
            ("description", J.str "How to render values"),
            ("enum", J.arr [J.str "FORMATTED_VALUE", J.str "UNFORMATTED_VALUE", J.str "FORMULA"]),
            ("default", J.str "FORMATTED_VALUE")])]),
        ("required", J.arr [J.str "spreadsheet_id", J.str "range"])] }]
  if st.drive_service.isSome then
    tools ++ [
      { name := "list_spreadsheets",
        description := "List all Google Spreadsheets accessible to the authenticated user",
        inputSchema := J.obj [("type", J.str "object"),
          ("properties", J.obj [
            ("limit", J.obj [("type", J.str "integer"),
              ("description", J.str "Maximum number of spreadsheets to return"),
              ("default", J.num 20)]),
            ("order_by", J.obj [("type", J.str "string"),
              ("description", J.str "How to order results"),
              ("enum", J.arr [J.str "name", J.str "modifiedTime", J.str "createdTime"]),
              ("default", J.str "modifiedTime desc")])]),
          ("required", J.arr [])] },
      { name := "search_spreadsheets_by_name",
        description := "Search for Google Spreadsheets by name",
        inputSchema := J.obj [("type", J.str "object"),
          ("properties", J.obj [
            ("name", strProp "Name or partial name of the spreadsheet to search for"),
            ("exact_match", J.obj [("type", J.str "boolean"),
              ("description", J.str "Whether to search for exact name match"),
              ("default", J.bool false)])]),
          ("required", J.arr [J.str "name"])] }]
  else tools

/-- The credential attributes `authenticate_google_services` inspects on a
stored `google.oauth2` Credentials object. -/
structure Cred where
  valid : Bool
  expired : Bool
  refresh_token : Bool

/-- The environment the authenticator consults: the persisted token file, the
outcome of a refresh round-trip, the client-secret artifact, the outcome of
the interactive flow, the API-key variable, and the service builders. The
builders with credentials can raise (the source re-raises from its build try
block); the developer-key build is modelled as total — no claim concerns its
failure mode. -/
structure AuthEnv where
  token_file : Option Cred
  refresh : Cred → Except String Cred
  credentials_file : Bool
  flow_run : Except String Cred
  api_key : Option String
  build_sheets_oauth : Cred → Except String SheetsHandle
  build_drive_oauth : Cred → Except String DriveHandle
  build_sheets_key : String → SheetsHandle

/-- What one authentication attempt produces: the new handle state and the
credential written to token.json (None when nothing was written, as on the
cached-valid and API-key paths). A raised exception (`.error`) discards any
partial effect; the source can in fact leave `sheets_service` set when only
the Drive build raises, but no claim distinguishes that state from a plain
failure. -/
structure AuthOutcome where
  state : ServerState
  token_written : Option Cred

/-- The final service-building step: `build('sheets', ...)` then
`build('drive', ...)` with the obtained credentials; both handles are
replaced, and a failure of either build is re-raised. -/
def buildServices (env : AuthEnv) (c : Cred) (written : Option Cred) :
    Except String AuthOutcome :=
  match env.build_sheets_oauth c with
  | .error e => .error e
  | .ok sh =>
      match env.build_drive_oauth c with
      | .error e => .error e
      | .ok dh => .ok ⟨⟨some sh, some dh⟩, written⟩

/-- The branch taken when no stored credential is usable and none is
refreshable: interactive flow if the client-secret file exists, else the
API-key fallback (which builds only the primary handle and returns early,
leaving `drive_service` as it was), else the ValueError of the source. -/
def freshCredPath (env : AuthEnv) (st : ServerState) : Except String AuthOutcome :=
  if env.credentials_file then
    match env.flow_run with
    | .error e => .error e
    | .ok c => buildServices env c (some c)
  else
    match env.api_key with
    | some key => .ok ⟨{ st with sheets_service := some (env.build_sheets_key key) }, none⟩
    | none => .error "Either credentials.json file or GOOGLE_SHEETS_API_KEY environment variable is required"

/-- `authenticate_google_services`, the credential state machine: a stored
valid credential is reused; a stored expired credential with a refresh token
is refreshed — a refresh failure raises out of the authenticator, there is no
fall-through; otherwise `freshCredPath` runs. A refreshed or newly obtained
credential is written to token.json before the services are built. -/
def authenticate_google_services (env : AuthEnv) (st : ServerState) :
    Except String AuthOutcome :=
  match env.token_file with
  | some c =>
      if c.valid then
        buildServices env c none
      else if c.expired && c.refresh_token then
        match env.refresh c with
        | .error e => .error e
        | .ok c2 => buildServices env c2 (some c2)
      else
        freshCredPath env st
  | none => freshCredPath env st

/-- The known-name dispatch table of `handle_call_tool`, in source order. -/
def knownToolNames : List String :=
  ["list_spreadsheets", "search_spreadsheets_by_name", "read_sheet_data",
   "get_sheet_metadata", "list_sheets", "search_sheet_data", "get_range_data"]

/-- The body of the dispatcher's try block: route the name to its operation;
an unknown name raises ValueError, which the dispatcher's own except clause
turns into the plain-text content `f"Error: Unknown tool: ..."`. The seven
operations are total here because each catches its failures internally. -/
def dispatch (st : ServerState) (name : String) (args : Args) : List Content :=
  if name = "list_spreadsheets" then _list_spreadsheets st args
  else if name = "search_spreadsheets_by_name" then _search_spreadsheets_by_name st args
  else if name = "read_sheet_data" then _read_sheet_data st args
  else if name = "get_sheet_metadata" then _get_sheet_metadata st args
  else if name = "list_sheets" then _list_sheets st args
  else if name = "search_sheet_data" then _search_sheet_data st args
  else if name = "get_range_data" then _get_range_data st args
  else [Content.text ("Error: Unknown tool: " ++ name)]

/-- `handle_call_tool`: when no primary handle is live yet, lazy
authentication runs BEFORE the try/except — its failure is a raised
exception (`.error`), not an envelope. After that, the try block dispatches
and never raises. The result pairs the (possibly updated) handle state with
the returned content list. -/
def handle_call_tool (env : AuthEnv) (st : ServerState) (name : String)
    (args : Args) : Except String (ServerState × List Content) :=
  match (if st.sheets_service.isNone
         then (authenticate_google_services env st).map (·.state)
         else .ok st) with
  | .error e => .error e
  | .ok st2 => .ok (st2, dispatch st2 name args)

/-- A serial sequence of tool calls, threading the handle state; a raised
call leaves the state as it was (the source mutates the handles only on
authentication success paths). -/
def runCalls (env : AuthEnv) (st : ServerState) : List (String × Args) → ServerState
  | [] => st
  | c :: rest =>
      match handle_call_tool env st c.1 c.2 with
      | .ok (st2, _) => runCalls env st2 rest
      | .error _ => runCalls env st rest

/-- Modelled from the spec wording of the search operation, for comparison
with the source's scan: every cell whose string form contains the term
case-insensitively as a substring, reported with 1-indexed row and column,
the matched cell and its full containing row, in row-major then column-major
scan order. -/
def specSearchMatches (term : String) (values : List (List J)) : List J :=
  (values.enum.map (fun rpair =>
    rpair.2.enum.filterMap (fun cpair =>
      if strHasSub (strLower (pyStr cpair.2)) (strLower term) then
        some (matchObj rpair.1 cpair.1 cpair.2 rpair.2)
      else none))).flatten

/-! Concrete service handles and authentication environments used by the
witness and counterexample theorems below. -/

/-- A primary handle whose oracles answer an empty sheet and a failing
metadata fetch. -/
def stubSheets : SheetsHandle :=
  ⟨fun _ _ _ => .ok [], fun _ _ => .error "metadata unavailable"⟩

/-- An extended handle whose listing oracle answers an empty page. -/
def stubDrive : DriveHandle := ⟨fun _ _ _ _ => .ok ⟨[], none⟩⟩

/-- An extended handle whose listing oracle raises with the query it was sent,
making the transmitted filter expression observable in the envelope. -/
def captureDrive : DriveHandle := ⟨fun q _ _ _ => .error q⟩

/-- An authentication environment with no stored token, no client-secret file
and no API key: every credential source is unavailable. -/
def env_unconfigured : AuthEnv :=
  { token_file := none, refresh := fun _ => .error "refresh failed",
    credentials_file := false, flow_run := .error "flow failed", api_key := none,
    build_sheets_oauth := fun _ => .error "build failed",
    build_drive_oauth := fun _ => .error "build failed",
    build_sheets_key := fun _ => stubSheets }

/-- A stored credential that is invalid, expired and carries a refresh token. -/
def cred_expired_refreshable : Cred := ⟨false, true, true⟩

/-- An environment where the stored credential is expired-but-refreshable, the
refresh round-trip fails, no client-secret file exists, and an API key IS
configured — the situation in which the spec expects a fall-through to the
API-key fallback. -/
def env_refresh_fails : AuthEnv :=
  { env_unconfigured with
    token_file := some cred_expired_refreshable,
    refresh := fun _ => .error "invalid_grant: Token has been expired or revoked.",
    api_key := some "A-KEY" }

/-- An environment where the stored expired credential refreshes successfully
and both service builds succeed. -/
def env_refresh_ok : AuthEnv :=
  { env_unconfigured with
    token_file := some cred_expired_refreshable,
    refresh := fun _ => .ok ⟨true, false, true⟩,
    build_sheets_oauth := fun _ => .ok stubSheets,
    build_drive_oauth := fun _ => .ok stubDrive }

/-- An environment with only an API key configured. -/
def env_key_only : AuthEnv := { env_unconfigured with api_key := some "A-KEY" }

/-- A values oracle that mimics the remote endpoint's rejection of a missing
(None) spreadsheet id or range, and otherwise answers a one-cell sheet. -/
def missingArgSvc : SheetsHandle :=
  ⟨fun id range _ =>
      match id, range with
      | J.null, _ => .error "Missing required parameter: spreadsheetId"
      | _, J.null => .error "Missing required parameter: range"
      | _, _ => .ok [[J.str "x"]],
   fun id _ =>
      match id with
      | J.null => .error "Missing required parameter: spreadsheetId"
      | _ => .ok ⟨none, none, none, []⟩⟩

/-- A values oracle answering the spec's worked example sheet
[["Alice","5"],["bob","7"]]. -/
def exampleSvc : SheetsHandle :=
  ⟨fun _ _ _ => .ok [[J.str "Alice", J.str "5"], [J.str "bob", J.str "7"]],
   fun _ _ => .error "metadata unavailable"⟩

/-- A values oracle answering a ragged grid whose first row has 1 cell and
whose second row has 3. -/
def raggedSvc : SheetsHandle :=
  ⟨fun _ _ _ => .ok [[J.str "a"], [J.str "b", J.str "c", J.str "d"]],
   fun _ _ => .error "metadata unavailable"⟩

/-- The five always-advertised operation names, in catalog order. -/
def baseToolNames : List String :=
  ["read_sheet_data", "get_sheet_metadata", "list_sheets", "search_sheet_data",
   "get_range_data"]

lemma handle_list_tools_names (st : ServerState) :
    (handle_list_tools st).map Tool.name =
      baseToolNames ++
        (if st.drive_service.isSome
         then ["list_spreadsheets", "search_spreadsheets_by_name"] else []) := by
  obtain ⟨ss, ds⟩ := st
  cases ds <;> rfl

/-- C3: for every handle state, `list_tools` returns exactly 5 descriptors
when the extended handle is null and exactly 7 when it is non-null, and the 2
extra descriptors are named exactly `list_spreadsheets` and
`search_spreadsheets_by_name` (appearing after the 5 base names). -/
theorem c3_catalog_gated_on_extended (st : ServerState) :
    (handle_list_tools st).map Tool.name =
      ["read_sheet_data", "get_sheet_metadata", "list_sheets", "search_sheet_data",
       "get_range_data"] ++
        (if st.drive_service.isSome
         then ["list_spreadsheets", "search_spreadsheets_by_name"] else []) ∧
    (handle_list_tools st).length = (if st.drive_service.isSome then 7 else 5) := by
  obtain ⟨ss, ds⟩ := st
  cases ds <;> exact ⟨rfl, rfl⟩

/-- C8: whenever the extended handle is null, `list_spreadsheets` and
`search_spreadsheets_by_name` answer a fixed error envelope stating that
OAuth authorization is required, for every argument mapping — and since the
absent handle is the only route to the file-listing oracle, no remote call
can be attempted (the result is this constant, oracle-independent envelope). -/
theorem c8_extended_ops_gated (st : ServerState) (args : Args)
    (hd : st.drive_service = none) :
    _list_spreadsheets st args =
      [Content.json (J.obj [("status", J.str "error"),
        ("error", J.str "Drive API not available. OAuth authentication required to list spreadsheets.")])] ∧
    _search_spreadsheets_by_name st args =
      [Content.json (J.obj [("status", J.str "error"),
        ("error", J.str "Drive API not available. OAuth authentication required to search spreadsheets.")])] := by
  obtain ⟨ss, ds⟩ := st
  cases hd
  exact ⟨rfl, rfl⟩

/-- Witness for C8 at a concrete API-key-only state and argument mapping. -/
theorem c8_extended_ops_gated_witness :
    _list_spreadsheets ⟨some stubSheets, none⟩ [("limit", J.num 3)] =
      [Content.json (J.obj [("status", J.str "error"),
        ("error", J.str "Drive API not available. OAuth authentication required to list spreadsheets.")])] ∧
    _search_spreadsheets_by_name ⟨some stubSheets, none⟩ [("name", J.str "Budget")] =
      [Content.json (J.obj [("status", J.str "error"),
        ("error", J.str "Drive API not available. OAuth authentication required to search spreadsheets.")])] :=
  ⟨(c8_extended_ops_gated ⟨some stubSheets, none⟩ [("limit", J.num 3)] rfl).1,
   (c8_extended_ops_gated ⟨some stubSheets, none⟩ [("name", J.str "Budget")] rfl).2⟩

/-- C1, counterexample: with no handle established and every credential source
unavailable, `handle_call_tool` RAISES the lazy authentication failure (the
`.error` of the boundary), instead of returning it as an error envelope — the
authentication step stands before the dispatcher's try/except. -/
theorem c1_counterexample_auth_failure_raises :
    handle_call_tool env_unconfigured ⟨none, none⟩ "read_sheet_data" [] =
      .error "Either credentials.json file or GOOGLE_SHEETS_API_KEY environment variable is required" :=
  rfl

/-- C1, amended: once the primary handle is established, every call returns an
envelope list and never raises (the result does not consult the
authentication environment at all); but when handles are not yet established
and the lazy authentication fails, that failure propagates out of
`handle_call_tool` as a raised exception, not as an error envelope. -/
theorem c1_call_boundary (env : AuthEnv) (st : ServerState) (name : String)
    (args : Args) :
    (∀ h, st.sheets_service = some h →
       handle_call_tool env st name args = .ok (st, dispatch st name args)) ∧
    (∀ e, st.sheets_service = none →
       authenticate_google_services env st = .error e →
       handle_call_tool env st name args = .error e) := by
  constructor
  · intro h hs
    simp [handle_call_tool, hs]
  · intro e hn ha
    simp [handle_call_tool, hn, ha, Except.map]

/-- Witness for C1 (amended) at a concrete handle state, operation and failing
environment. -/
theorem c1_call_boundary_witness :
    handle_call_tool env_unconfigured ⟨some stubSheets, none⟩ "get_range_data" [] =
      .ok (⟨some stubSheets, none⟩,
        dispatch ⟨some stubSheets, none⟩ "get_range_data" []) ∧
    handle_call_tool env_unconfigured ⟨none, none⟩ "get_range_data" [] =
      .error "Either credentials.json file or GOOGLE_SHEETS_API_KEY environment variable is required" :=
  ⟨(c1_call_boundary env_unconfigured ⟨some stubSheets, none⟩ "get_range_data" []).1
      stubSheets rfl,
   (c1_call_boundary env_unconfigured ⟨none, none⟩ "get_range_data" []).2 _ rfl rfl⟩

/-- C2, counterexample: a stored expired credential with a refresh token whose
refresh fails, while an API key IS configured — the authenticator raises the
refresh error instead of falling through to the API-key fallback. -/
theorem c2_counterexample_no_fallthrough :
    env_refresh_fails.api_key = some "A-KEY" ∧
    env_refresh_fails.credentials_file = false ∧
    authenticate_google_services env_refresh_fails ⟨none, none⟩ =
      .error "invalid_grant: Token has been expired or revoked." :=
  ⟨rfl, rfl, rfl⟩

/-- C2, amended: a stored expired credential with a refresh token triggers a
refresh attempt, but a refresh failure PROPAGATES as a raised error — there is
no fall-through to the interactive flow or the API-key fallback; on refresh
success both handles are built (and the refreshed credential persisted); the
API-key fallback is reached only when no credential is stored and no
client-secret file exists, and it builds only the primary handle, leaving the
extended handle as it was (absent). -/
theorem c2_auth_state_machine (env : AuthEnv) (st : ServerState) :
    (∀ c e, env.token_file = some c → c.valid = false → c.expired = true →
       c.refresh_token = true → env.refresh c = .error e →
       authenticate_google_services env st = .error e) ∧
    (∀ c c2 sh dh, env.token_file = some c → c.valid = false → c.expired = true →
       c.refresh_token = true → env.refresh c = .ok c2 →
       env.build_sheets_oauth c2 = .ok sh → env.build_drive_oauth c2 = .ok dh →
       authenticate_google_services env st = .ok ⟨⟨some sh, some dh⟩, some c2⟩) ∧
    (∀ k, env.token_file = none → env.credentials_file = false →
       env.api_key = some k →
       authenticate_google_services env st =
         .ok ⟨{ st with sheets_service := some (env.build_sheets_key k) }, none⟩) := by
  refine ⟨?_, ?_, ?_⟩
  · intro c e ht hv he hr hrf
    simp [authenticate_google_services, ht, hv, he, hr, hrf]
  · intro c c2 sh dh ht hv he hr hrf hbs hbd
    simp [authenticate_google_services, buildServices, ht, hv, he, hr, hrf, hbs, hbd]
  · intro k ht hc hk
    simp [authenticate_google_services, freshCredPath, ht, hc, hk]

/-- Witness for C2 (amended): the three branches applied at concrete
environments — failing refresh, succeeding refresh, API-key-only. -/
theorem c2_auth_state_machine_witness :
    authenticate_google_services env_refresh_fails ⟨none, none⟩ =
      .error "invalid_grant: Token has been expired or revoked." ∧
    authenticate_google_services env_refresh_ok ⟨none, none⟩ =
      .ok ⟨⟨some stubSheets, some stubDrive⟩, some ⟨true, false, true⟩⟩ ∧
    authenticate_google_services env_key_only ⟨none, none⟩ =
      .ok ⟨⟨some stubSheets, none⟩, none⟩ :=
  ⟨(c2_auth_state_machine env_refresh_fails ⟨none, none⟩).1
      cred_expired_refreshable _ rfl rfl rfl rfl rfl,
   (c2_auth_state_machine env_refresh_ok ⟨none, none⟩).2.1
      cred_expired_refreshable ⟨true, false, true⟩ stubSheets stubDrive
      rfl rfl rfl rfl rfl rfl rfl,
   (c2_auth_state_machine env_key_only ⟨none, none⟩).2.2 "A-KEY" rfl rfl rfl⟩

/-- C5: for every operation name outside the fixed dispatch table, a call with
established handles returns the dispatcher's error content built from the
message `Unknown tool: <name>` (delivered as the text `Error: Unknown tool:
<name>`), and nothing is raised to the host. -/
theorem c5_unknown_tool (env : AuthEnv) (st : ServerState) (name : String)
    (args : Args) (h : SheetsHandle) (hs : st.sheets_service = some h)
    (hn : name ∉ knownToolNames) :
    handle_call_tool env st name args =
      .ok (st, [Content.text ("Error: Unknown tool: " ++ name)]) := by
  simp only [knownToolNames, List.mem_cons, List.not_mem_nil, or_false,
    not_or] at hn
  obtain ⟨h1, h2, h3, h4, h5, h6, h7⟩ := hn
  simp [handle_call_tool, hs, dispatch, h1, h2, h3, h4, h5, h6, h7]

/-- Witness for C5 at a concrete unknown name. -/
theorem c5_unknown_tool_witness :
    handle_call_tool env_unconfigured ⟨some stubSheets, none⟩ "write_sheet_data" [] =
      .ok (⟨some stubSheets, none⟩,
        [Content.text ("Error: Unknown tool: " ++ "write_sheet_data")]) :=
  c5_unknown_tool env_unconfigured ⟨some stubSheets, none⟩ "write_sheet_data" []
    stubSheets rfl (by decide)

/-- C9: in every success envelope of `read_sheet_data` and `get_range_data`
with at least one row, `column_count` is the length of the FIRST row alone,
whatever the widths of the later rows (so not the maximum row width); and when
`get_range_data` fetches zero rows its `column_count` is 0 (`read_sheet_data`
answers its distinct no-data envelope there, which carries no counts). -/
theorem c9_column_count_first_row (svc : SheetsHandle) (dv : Option DriveHandle)
    (args : Args) (v0 : List J) (rest : List (List J)) :
    (svc.valuesGet (args.get "spreadsheet_id") (args.getD "range" (J.str "Sheet1"))
        none = .ok (v0 :: rest) →
      _read_sheet_data ⟨some svc, dv⟩ args =
        [Content.json (J.obj [("status", J.str "success"),
          ("spreadsheet_id", args.get "spreadsheet_id"),
          ("range", args.getD "range" (J.str "Sheet1")),
          ("row_count", J.num (v0 :: rest).length),
          ("column_count", J.num v0.length),
          ("data", J.arr ((v0 :: rest).map J.arr))])]) ∧
    (svc.valuesGet (args.get "spreadsheet_id") (args.get "range")
        (some (args.getD "value_render_option" (J.str "FORMATTED_VALUE"))) =
          .ok (v0 :: rest) →
      _get_range_data ⟨some svc, dv⟩ args =
        [Content.json (J.obj [("status", J.str "success"),
          ("spreadsheet_id", args.get "spreadsheet_id"),
          ("range", args.get "range"),
          ("value_render_option", args.getD "value_render_option" (J.str "FORMATTED_VALUE")),
          ("row_count", J.num (v0 :: rest).length),
          ("column_count", J.num v0.length),
          ("data", J.arr ((v0 :: rest).map J.arr))])]) ∧
    (svc.valuesGet (args.get "spreadsheet_id") (args.get "range")
        (some (args.getD "value_render_option" (J.str "FORMATTED_VALUE"))) = .ok [] →
      _get_range_data ⟨some svc, dv⟩ args =
        [Content.json (J.obj [("status", J.str "success"),
          ("spreadsheet_id", args.get "spreadsheet_id"),
          ("range", args.get "range"),
          ("value_render_option", args.getD "value_render_option" (J.str "FORMATTED_VALUE")),
          ("row_count", J.num 0),
          ("column_count", J.num 0),
          ("data", J.arr [])])]) := by
  refine ⟨?_, ?_, ?_⟩
  · intro hv
    simp [_read_sheet_data, getSheetsValues, hv]
  · intro hv
    simp [_get_range_data, getSheetsValues, hv]
  · intro hv
    simp [_get_range_data, getSheetsValues, hv]

/-- Witness for C9 at the ragged grid [["a"],["b","c","d"]]: `column_count` is
1, the first row's width, although a later row is 3 wide; and at an empty
fetch `get_range_data` reports 0. -/
theorem c9_column_count_first_row_witness :
    _read_sheet_data ⟨some raggedSvc, none⟩ [("spreadsheet_id", J.str "sid")] =
      [Content.json (J.obj [("status", J.str "success"),
        ("spreadsheet_id", J.str "sid"),
        ("range", J.str "Sheet1"),
        ("row_count", J.num 2),
        ("column_count", J.num 1),
        ("data", J.arr [J.arr [J.str "a"],
          J.arr [J.str "b", J.str "c", J.str "d"]])])] ∧
    _get_range_data ⟨some raggedSvc, none⟩
        [("spreadsheet_id", J.str "sid"), ("range", J.str "A1:C2")] =
      [Content.json (J.obj [("status", J.str "success"),
        ("spreadsheet_id", J.str "sid"),
        ("range", J.str "A1:C2"),
        ("value_render_option", J.str "FORMATTED_VALUE"),
        ("row_count", J.num 2),
        ("column_count", J.num 1),
        ("data", J.arr [J.arr [J.str "a"],
          J.arr [J.str "b", J.str "c", J.str "d"]])])] ∧
    _get_range_data ⟨some stubSheets, none⟩
        [("spreadsheet_id", J.str "sid"), ("range", J.str "A1:C2")] =
      [Content.json (J.obj [("status", J.str "success"),
        ("spreadsheet_id", J.str "sid"),
        ("range", J.str "A1:C2"),
        ("value_render_option", J.str "FORMATTED_VALUE"),
        ("row_count", J.num 0),
        ("column_count", J.num 0),
        ("data", J.arr [])])] :=
  ⟨(c9_column_count_first_row raggedSvc none [("spreadsheet_id", J.str "sid")]
      [J.str "a"] [[J.str "b", J.str "c", J.str "d"]]).1 rfl,
   (c9_column_count_first_row raggedSvc none
      [("spreadsheet_id", J.str "sid"), ("range", J.str "A1:C2")]
      [J.str "a"] [[J.str "b", J.str "c", J.str "d"]]).2.1 rfl,
   (c9_column_count_first_row stubSheets none
      [("spreadsheet_id", J.str "sid"), ("range", J.str "A1:C2")] [] []).2.2 rfl⟩

/-- C10: once the primary handle is established, `handle_call_tool` never
re-invokes authentication — its result is independent of the authentication
environment and leaves the state untouched; hence over any serial sequence of
calls the state is invariant, and from an API-key-only state (extended handle
null) the advertised catalog stays the 5 base tools forever. -/
theorem c10_no_reauth_after_primary (env : AuthEnv) (st : ServerState)
    (h : SheetsHandle) (hs : st.sheets_service = some h) :
    (∀ name args, handle_call_tool env st name args = .ok (st, dispatch st name args)) ∧
    (∀ calls, runCalls env st calls = st) ∧
    (st.drive_service = none → ∀ calls,
       (handle_list_tools (runCalls env st calls)).map Tool.name = baseToolNames) := by
  have hcall : ∀ name args,
      handle_call_tool env st name args = .ok (st, dispatch st name args) := by
    intro name args
    simp [handle_call_tool, hs]
  have hrun : ∀ calls, runCalls env st calls = st := by
    intro calls
    induction calls with
    | nil => rfl
    | cons c rest ih => simp [runCalls, hcall, ih]
  refine ⟨hcall, hrun, ?_⟩
  intro hd calls
  rw [hrun, handle_list_tools_names, hd]
  simp

/-- Witness for C10 at the API-key-only state, a concrete environment in which
re-authentication would in fact succeed with OAuth, and a concrete call
sequence: the state (and the 5-tool catalog) does not change. -/
theorem c10_no_reauth_after_primary_witness :
    runCalls env_refresh_ok ⟨some stubSheets, none⟩
      [("list_spreadsheets", []), ("read_sheet_data", [("spreadsheet_id", J.str "sid")])] =
      ⟨some stubSheets, none⟩ ∧
    (handle_list_tools (runCalls env_refresh_ok ⟨some stubSheets, none⟩
        [("list_spreadsheets", []), ("read_sheet_data", [("spreadsheet_id", J.str "sid")])])).map
        Tool.name = baseToolNames :=
  ⟨(c10_no_reauth_after_primary env_refresh_ok ⟨some stubSheets, none⟩ stubSheets
      rfl).2.1 _,
   (c10_no_reauth_after_primary env_refresh_ok ⟨some stubSheets, none⟩ stubSheets
      rfl).2.2 rfl _⟩

/-- C4: the user-supplied name is interpolated into the Drive filter query
verbatim, with NO escaping — a single quote inside the name terminates the
quoted literal and injects further filter terms. The first conjunct shows the
benign shape; the second shows the injected query a quote-bearing name
produces; the third shows the operation transmitting exactly that injected
query to the file-listing endpoint (made observable by an oracle that raises
with the query it receives). -/
theorem c4_name_interpolated_unescaped :
    buildNameQuery (J.str "x") false =
      "mimeType='application/vnd.google-apps.spreadsheet' and name contains 'x'" ∧
    buildNameQuery (J.str "x' or name contains 'y") false =
      "mimeType='application/vnd.google-apps.spreadsheet' and name contains 'x' or name contains 'y'" ∧
    _search_spreadsheets_by_name ⟨none, some captureDrive⟩
        [("name", J.str "x' or name contains 'y")] =
      [Content.json (J.obj [("status", J.str "error"),
        ("error", J.str "An error occurred: mimeType='application/vnd.google-apps.spreadsheet' and name contains 'x' or name contains 'y'")])] :=
  ⟨rfl, rfl, rfl⟩

/-- C6, counterexample: `search_sheet_data` invoked without its required
`search_term` does yield an envelope, but its message is the NoneType
attribute error, which does not name the missing field — and on an empty
sheet the same missing argument even yields a SUCCESS envelope, because the
scan never touches the absent value. -/
theorem c6_counterexample_missing_field_unnamed :
    _search_sheet_data ⟨some missingArgSvc, none⟩ [("spreadsheet_id", J.str "sid")] =
      errEnvelope "'NoneType' object has no attribute 'lower'" ∧
    strHasSub "'NoneType' object has no attribute 'lower'" "search_term" = false ∧
    _search_sheet_data ⟨some stubSheets, none⟩ [("spreadsheet_id", J.str "sid")] =
      [Content.json (J.obj [("status", J.str "success"),
        ("search_term", J.null),
        ("sheet_name", J.str "Sheet1"),
        ("matches_found", J.num 0),
        ("matches", J.arr [])])] :=
  ⟨rfl, by decide, rfl⟩

/-- C6, amended: for each operation with required arguments, a call missing
one never raises past the host boundary — the per-operation try/except always
yields an envelope — but that envelope does not name the missing field: the
absent value (None) flows into the remote call or the scan, so the message is
whatever failure that produces; `search_spreadsheets_by_name` even
interpolates the absent name as the text None and returns a success envelope.
(`list_spreadsheets` has no required arguments.) -/
theorem c6_missing_required_argument (svc : SheetsHandle) (dv : Option DriveHandle)
    (dh : DriveHandle) (e1 e2 e3 e4 : String) :
    (svc.valuesGet J.null (J.str "Sheet1") none = .error e1 →
       _read_sheet_data ⟨some svc, dv⟩ [] = errEnvelope e1) ∧
    (svc.spreadsheetsGet J.null none = .error e2 →
       _get_sheet_metadata ⟨some svc, dv⟩ [] = errEnvelope e2) ∧
    (svc.spreadsheetsGet J.null (some "sheets.properties") = .error e3 →
       _list_sheets ⟨some svc, dv⟩ [] = errEnvelope e3) ∧
    (svc.valuesGet (J.str "sid") (J.str "Sheet1") none = .ok [[J.str "x"]] →
       _search_sheet_data ⟨some svc, dv⟩ [("spreadsheet_id", J.str "sid")] =
         errEnvelope "'NoneType' object has no attribute 'lower'") ∧
    (svc.valuesGet (J.str "sid") J.null (some (J.str "FORMATTED_VALUE")) = .error e4 →
       _get_range_data ⟨some svc, dv⟩ [("spreadsheet_id", J.str "sid")] =
         errEnvelope e4) ∧
    (dh.filesList (buildNameQuery J.null false) (J.num 50) none
        "nextPageToken, files(id, name, modifiedTime, createdTime, owners)" =
          .ok ⟨[], none⟩ →
       _search_spreadsheets_by_name ⟨some svc, some dh⟩ [] =
         [Content.json (J.obj [("status", J.str "success"),
           ("search_term", J.null),
           ("exact_match", J.bool false),
           ("message", J.str "No spreadsheets found matching 'None'."),
           ("matches_found", J.num 0),
           ("spreadsheets", J.arr [])])]) := by
  refine ⟨?_, ?_, ?_, ?_, ?_, ?_⟩
  · intro hv
    show (match svc.valuesGet (Args.get [] "spreadsheet_id")
        (Args.getD [] "range" (J.str "Sheet1")) none with
      | .error e => errEnvelope e
      | .ok values => _) = _
    rw [show Args.get [] "spreadsheet_id" = J.null from rfl,
      show Args.getD [] "range" (J.str "Sheet1") = J.str "Sheet1" from rfl, hv]
  · intro hv
    show (match svc.spreadsheetsGet (Args.get [] "spreadsheet_id") none with
      | .error e => errEnvelope e
      | .ok result => _) = _
    rw [show Args.get [] "spreadsheet_id" = J.null from rfl, hv]
  · intro hv
    show (match svc.spreadsheetsGet (Args.get [] "spreadsheet_id")
        (some "sheets.properties") with
      | .error e => errEnvelope e
      | .ok result => _) = _
    rw [show Args.get [] "spreadsheet_id" = J.null from rfl, hv]
  · intro hv
    unfold _search_sheet_data getSheetsValues
    rw [show Args.get [("spreadsheet_id", J.str "sid")] "spreadsheet_id" =
        J.str "sid" from rfl,
      show Args.getD [("spreadsheet_id", J.str "sid")] "sheet_name" (J.str "Sheet1") =
        J.str "Sheet1" from rfl,
      show Args.get [("spreadsheet_id", J.str "sid")] "search_term" = J.null from rfl]
    dsimp only
    rw [hv]
    rfl
  · intro hv
    unfold _get_range_data getSheetsValues
    rw [show Args.get [("spreadsheet_id", J.str "sid")] "spreadsheet_id" =
        J.str "sid" from rfl,
      show Args.get [("spreadsheet_id", J.str "sid")] "range" = J.null from rfl,
      show Args.getD [("spreadsheet_id", J.str "sid")] "value_render_option"
        (J.str "FORMATTED_VALUE") = J.str "FORMATTED_VALUE" from rfl]
    dsimp only
    rw [hv]
  · intro hv
    unfold _search_spreadsheets_by_name
    rw [show Args.get [] "name" = J.null from rfl,
      show Args.getD [] "exact_match" (J.bool false) = J.bool false from rfl]
    dsimp only [pyTruthy]
    rw [hv]
    simp [pyStr, pyRepr]

/-- Witness for C6 (amended): a values oracle that rejects None parameters
the way the remote endpoint does, an empty listing page, and the concrete
resulting envelopes. -/
theorem c6_missing_required_argument_witness :
    _read_sheet_data ⟨some missingArgSvc, none⟩ [] =
      errEnvelope "Missing required parameter: spreadsheetId" ∧
    _get_sheet_metadata ⟨some missingArgSvc, none⟩ [] =
      errEnvelope "Missing required parameter: spreadsheetId" ∧
    _list_sheets ⟨some missingArgSvc, none⟩ [] =
      errEnvelope "Missing required parameter: spreadsheetId" ∧
    _search_sheet_data ⟨some missingArgSvc, none⟩ [("spreadsheet_id", J.str "sid")] =
      errEnvelope "'NoneType' object has no attribute 'lower'" ∧
    _get_range_data ⟨some missingArgSvc, none⟩ [("spreadsheet_id", J.str "sid")] =
      errEnvelope "Missing required parameter: range" ∧
    _search_spreadsheets_by_name ⟨some missingArgSvc, some stubDrive⟩ [] =
      [Content.json (J.obj [("status", J.str "success"),
        ("search_term", J.null),
        ("exact_match", J.bool false),
        ("message", J.str "No spreadsheets found matching 'None'."),
        ("matches_found", J.num 0),
        ("spreadsheets", J.arr [])])] :=
  ⟨(c6_missing_required_argument missingArgSvc none stubDrive
      "Missing required parameter: spreadsheetId" "Missing required parameter: spreadsheetId"
      "Missing required parameter: spreadsheetId" "Missing required parameter: range").1 rfl,
   (c6_missing_required_argument missingArgSvc none stubDrive
      "Missing required parameter: spreadsheetId" "Missing required parameter: spreadsheetId"
      "Missing required parameter: spreadsheetId" "Missing required parameter: range").2.1 rfl,
   (c6_missing_required_argument missingArgSvc none stubDrive
      "Missing required parameter: spreadsheetId" "Missing required parameter: spreadsheetId"
      "Missing required parameter: spreadsheetId" "Missing required parameter: range").2.2.1 rfl,
   (c6_missing_required_argument missingArgSvc none stubDrive
      "Missing required parameter: spreadsheetId" "Missing required parameter: spreadsheetId"
      "Missing required parameter: spreadsheetId" "Missing required parameter: range").2.2.2.1 rfl,
   (c6_missing_required_argument missingArgSvc none stubDrive
      "Missing required parameter: spreadsheetId" "Missing required parameter: spreadsheetId"
      "Missing required parameter: spreadsheetId" "Missing required parameter: range").2.2.2.2.1 rfl,
   (c6_missing_required_argument missingArgSvc none stubDrive
      "Missing required parameter: spreadsheetId" "Missing required parameter: spreadsheetId"
      "Missing required parameter: spreadsheetId" "Missing required parameter: range").2.2.2.2.2 rfl⟩

lemma scanCellsAux_str (t : String) (ri : Nat) (row : List J)
    (l : List (Nat × J)) : ∀ acc,
    scanCellsAux (J.str t) ri row l acc =
      .ok (acc ++ l.filterMap (fun c =>
        if strHasSub (strLower (pyStr c.2)) (strLower t) then
          some (matchObj ri c.1 c.2 row) else none)) := by
  induction l with
  | nil => intro acc; simp [scanCellsAux]
  | cons c cs ih =>
      intro acc
      by_cases hb : strHasSub (strLower (pyStr c.2)) (strLower t)
      · simp [scanCellsAux, pyLower, hb, ih, List.filterMap_cons]
      · simp [scanCellsAux, pyLower, hb, ih, List.filterMap_cons]

lemma scanRowsAux_str (t : String) (l : List (Nat × List J)) : ∀ acc,
    scanRowsAux (J.str t) l acc =
      .ok (acc ++ (l.map (fun r =>
        r.2.enum.filterMap (fun c =>
          if strHasSub (strLower (pyStr c.2)) (strLower t) then
            some (matchObj r.1 c.1 c.2 r.2) else none))).flatten) := by
  induction l with
  | nil => intro acc; simp [scanRowsAux]
  | cons r rs ih =>
      intro acc
      simp [scanRowsAux, scanCellsAux_str, ih, List.append_assoc]

/-- C7: the scan of `_search_sheet_data` returns exactly the cells whose
string form contains the term case-insensitively as a substring, each as a
1-indexed row/column record with the cell value and its full row, in
row-major then column-major order (the spec-side `specSearchMatches`); and on
the worked example [["Alice","5"],["bob","7"]] with term "OB" the operation
answers exactly one match at row 2, column 1, cell_value "bob". -/
theorem c7_search_scan_semantics :
    (∀ (t : String) (values : List (List J)),
       scanRows (J.str t) values = .ok (specSearchMatches t values)) ∧
    _search_sheet_data ⟨some exampleSvc, none⟩
        [("spreadsheet_id", J.str "sid"), ("search_term", J.str "OB")] =
      [Content.json (J.obj [("status", J.str "success"),
        ("search_term", J.str "OB"),
        ("sheet_name", J.str "Sheet1"),
        ("matches_found", J.num 1),
        ("matches", J.arr [J.obj [("row", J.num 2), ("column", J.num 1),
          ("cell_value", J.str "bob"),
          ("full_row", J.arr [J.str "bob", J.str "7"])]])])] :=
  ⟨fun t values => by simp [scanRows, scanRowsAux_str, specSearchMatches], rfl⟩

end SheetMCP
